import Mathlib

/-!
Verification of the Slack archiver core (src/Slack_archiver/slack_archiver.py).

Shallow embedding of the SQLite-backed archiver:

* the two tables created by `setup_database` become the `DB` record
  (`channels` and `messages` as lists of rows in insertion order);
* the Slack timestamp strings (`ts`), which serve both as `message_id`
  and as `timestamp`/cursor values and are only ever compared under the
  column's total order, are modelled as naturals;
* upstream calls (`conversations_info`, `conversations_history`) are
  parameters: the archiver receives the result the Slack client would
  return, either a page of messages or a `SlackApiError`;
* a SQLite transaction (the `with sqlite3.connect(...)` block with the
  single `conn.commit()` at the end) is modelled as all-or-nothing: a
  successful run publishes the new state at commit, while an uncaught
  `sqlite3` error rolls every uncommitted write back, leaving the
  pre-transaction state, and propagates (`Except.error`).
-/

/-- A row of the `channels` table:
`channels(channel_id TEXT PRIMARY KEY, channel_name TEXT, last_archived_timestamp TEXT)`.
`last_archived_timestamp` is the channel's cursor, `NULL` at registration. -/
structure Channel where
  channel_id : String
  channel_name : String
  last_archived_timestamp : Option Nat
deriving DecidableEq, Repr

/-- A row of the `messages` table:
`messages(message_id TEXT PRIMARY KEY, channel_id TEXT, timestamp TEXT, user TEXT, text TEXT)`.
Note the PRIMARY KEY is `message_id` alone, not `(channel_id, message_id)`. -/
structure Row where
  message_id : Nat
  channel_id : String
  timestamp : Nat
  user : String
  text : String
deriving DecidableEq, Repr

/-- The persistent state: the two tables, rows kept in insertion order. -/
structure DB where
  channels : List Channel
  messages : List Row
deriving DecidableEq, Repr

/-- `setup_database` on a fresh file: both tables empty. -/
def setup_database : DB := { channels := [], messages := [] }

/-- One message as returned by `conversations_history`: its `ts` and the
optional `user` / `text` fields (the code reads them with
`message.get('user', 'N/A')` and `message.get('text', '')`). -/
structure SlackMessage where
  ts : Nat
  user : Option String
  text : Option String
deriving DecidableEq, Repr

/-- Result of a `conversations_history` call: a page of messages, or a
`SlackApiError` raised by the client. -/
inductive FetchResult where
  | ok (messages : List SlackMessage)
  | apiError
deriving DecidableEq, Repr

/-- Whether the SQLite writes of one archiving transaction succeed or hit an
I/O fault (an uncaught `sqlite3` error: the transaction rolls back and the
exception propagates, since the `except` clause only catches `SlackApiError`). -/
inductive ApplyOutcome where
  | success
  | storageError
deriving DecidableEq, Repr

/-- `add_channel_to_archive` (lines 52-76).  `info` is the outcome of
`conversations_info`: `some name` on success, `none` when the client raises
`SlackApiError` (caught and printed, no write).  On success the row is written
with `INSERT OR REPLACE`, which deletes any existing row for the same
`channel_id` and appends a fresh row whose `last_archived_timestamp` is NULL. -/
def add_channel_to_archive (db : DB) (channel_id : String) (info : Option String) : DB :=
  match info with
  | none => db
  | some name =>
      { db with
        channels :=
          db.channels.filter (fun c => c.channel_id ≠ channel_id)
            ++ [{ channel_id := channel_id, channel_name := name,
                  last_archived_timestamp := none }] }

/-- The cursor read at the start of `archive_channel_messages` (lines 88-93):
`result[0] if result else None` — a missing channel row and a NULL cursor are
indistinguishable, both give `None`. -/
def lastTimestamp (db : DB) (channel_id : String) : Option Nat :=
  match db.channels.find? (fun c => c.channel_id = channel_id) with
  | some c => c.last_archived_timestamp
  | none => none

/-- `SELECT last_archived_timestamp FROM channels WHERE channel_id = ?` with
the row's presence visible: `none` when the channel was never registered. -/
def getCursor (db : DB) (channel_id : String) : Option (Option Nat) :=
  (db.channels.find? (fun c => c.channel_id = channel_id)).map
    (fun c => c.last_archived_timestamp)

/-- The row inserted for one fetched message (lines 104-114): both
`message_id` and `timestamp` are set to `message['ts']`. -/
def rowOfMessage (channel_id : String) (m : SlackMessage) : Row :=
  { message_id := m.ts, channel_id := channel_id, timestamp := m.ts,
    user := m.user.getD "N/A", text := m.text.getD "" }

/-- `INSERT OR IGNORE INTO messages ...`: the insert is a no-op whenever a row
with the same `message_id` already exists (the PRIMARY KEY is `message_id`
alone, so a clash with a row of a different channel is also ignored). -/
def insertOrIgnore (table : List Row) (r : Row) : List Row :=
  if table.any (fun x => x.message_id = r.message_id) then table else table ++ [r]

/-- `UPDATE channels SET last_archived_timestamp = ? WHERE channel_id = ?`
(lines 118-125): a no-op on channels whose id differs, and on an empty match. -/
def updateCursor (chs : List Channel) (channel_id : String) (ts : Nat) : List Channel :=
  chs.map (fun c =>
    if c.channel_id = channel_id then { c with last_archived_timestamp := some ts } else c)

/-- The write half of `archive_channel_messages` (lines 103-127): insert every
fetched message with `INSERT OR IGNORE`, then, if the page is non-empty, set
the cursor to `messages_result['messages'][0]['ts']` — the ts of the FIRST
element of the returned page. -/
def applyPage (db : DB) (channel_id : String) (msgs : List SlackMessage) : DB :=
  { channels :=
      match msgs with
      | [] => db.channels
      | m0 :: _ => updateCursor db.channels channel_id m0.ts
    messages := msgs.foldl (fun t m => insertOrIgnore t (rowOfMessage channel_id m)) db.messages }

/-- `archive_channel_messages` (lines 78-129).  `fetch` stands for
`conversations_history(channel=channel_id, oldest=last_timestamp or '0', limit=50)`,
applied to the `oldest` bound actually passed.  A `SlackApiError` is caught and
printed, committing an empty transaction (`Except.ok db`).  On a fetched page
the writes run inside the transaction: `outcome = success` commits the fully
applied page, while `outcome = storageError` models an uncaught `sqlite3`
error — the transaction rolls back and the exception propagates
(`Except.error` carrying the unchanged state). -/
def archive_channel_messages (db : DB) (channel_id : String)
    (fetch : Nat → FetchResult) (outcome : ApplyOutcome) : Except DB DB :=
  match fetch ((lastTimestamp db channel_id).getD 0) with
  | FetchResult.apiError => Except.ok db
  | FetchResult.ok msgs =>
      match outcome with
      | ApplyOutcome.success => Except.ok (applyPage db channel_id msgs)
      | ApplyOutcome.storageError => Except.error db

/-- The database state after a call, whether it returned or raised (the
raising case carries the rolled-back state). -/
def stateOf : Except DB DB → DB
  | Except.ok d => d
  | Except.error d => d

/-- `schedule_archiving` (lines 173-186): enumerate the registered channel
ids, then call `archive_channel_messages` on each in order.  `env` supplies,
per channel, the upstream fetch behaviour and the storage outcome of that
channel's transaction.  An exception raised by one call aborts the loop. -/
def schedule_archiving (db : DB) (env : String → (Nat → FetchResult) × ApplyOutcome) :
    Except DB DB :=
  (db.channels.map (fun c => c.channel_id)).foldlM
    (fun d channel_id => archive_channel_messages d channel_id (env channel_id).1 (env channel_id).2)
    db

/-- One row of a `get_channel_messages` result: the projection
`SELECT message_id, timestamp, user, text` wrapped as a dict (lines 142-158). -/
structure QueryRow where
  message_id : Nat
  timestamp : Nat
  user : String
  text : String
deriving DecidableEq, Repr

/-- The projection applied to each selected row. -/
def queryRowOf (r : Row) : QueryRow :=
  { message_id := r.message_id, timestamp := r.timestamp, user := r.user, text := r.text }

/-- `get_channel_messages` (lines 131-158):
`SELECT message_id, timestamp, user, text FROM messages WHERE channel_id = ?
ORDER BY timestamp LIMIT ? OFFSET ?`.  The rows of the channel are sorted by
`timestamp` (a stable sort stands in for the unspecified tie order of SQLite's
`ORDER BY`; ties cannot occur in reachable states, where `message_id` is the
timestamp and is unique), then `OFFSET` rows are skipped and `LIMIT` taken. -/
def get_channel_messages (db : DB) (channel_id : String) (limit offset : Nat) : List QueryRow :=
  ((((db.messages.filter (fun r => r.channel_id = channel_id)).insertionSort
      (fun a b => a.timestamp ≤ b.timestamp)).drop offset).take limit).map queryRowOf

/-- The states reachable from a fresh database by the program's own writes:
channel registration and archiving runs (including failed ones, which leave
the rolled-back state). -/
inductive Reachable : DB → Prop where
  | init : Reachable setup_database
  | add (db : DB) (channel_id : String) (info : Option String) :
      Reachable db → Reachable (add_channel_to_archive db channel_id info)
  | archive (db : DB) (channel_id : String) (fetch : Nat → FetchResult)
      (outcome : ApplyOutcome) :
      Reachable db →
      Reachable (stateOf (archive_channel_messages db channel_id fetch outcome))

/-- The order the query claims: position (timestamp) ascending, ties on equal
positions resolved by `message_id`. -/
def posIdLe (a b : QueryRow) : Prop :=
  a.timestamp < b.timestamp ∨ (a.timestamp = b.timestamp ∧ a.message_id ≤ b.message_id)

instance : DecidableRel posIdLe := fun a b => by
  unfold posIdLe
  infer_instance

instance : IsTotal Row (fun a b => a.timestamp ≤ b.timestamp) :=
  ⟨fun a b => Nat.le_total a.timestamp b.timestamp⟩

instance : IsTrans Row (fun a b => a.timestamp ≤ b.timestamp) :=
  ⟨fun _ _ _ hab hbc => Nat.le_trans hab hbc⟩

/-- Whether a call raised (propagated an exception) rather than returned. -/
def raised : Except DB DB → Bool
  | Except.ok _ => false
  | Except.error _ => true

/-- Example state: the channel C1 registered, cursor still NULL. -/
def dbReg : DB := add_channel_to_archive setup_database "C1" (some "general")

/-- The first upstream page of the §8 scenario: three messages ordered
ascending by position, ending at position 100. -/
def page1 : List SlackMessage :=
  [{ ts := 10, user := none, text := none }, { ts := 50, user := none, text := none },
   { ts := 100, user := none, text := none }]

/-- State after one archiving run for C1 in which upstream returned `page1`. -/
def run1 : DB :=
  stateOf (archive_channel_messages dbReg "C1" (fun _ => FetchResult.ok page1)
    ApplyOutcome.success)

/-- State after a second archiving run in which upstream returned the single
message at position 150 (page2 of the §8 scenario). -/
def run2 : DB :=
  stateOf (archive_channel_messages run1 "C1"
    (fun _ => FetchResult.ok [{ ts := 150, user := none, text := none }])
    ApplyOutcome.success)

/-- Example state: two channels A and B registered, in this order. -/
def dbAB : DB :=
  add_channel_to_archive (add_channel_to_archive setup_database "A" (some "a")) "B" (some "b")

/-- `dbAB` after archiving, into channel A, a page with the single ts 7. -/
def dbA7 : DB :=
  stateOf (archive_channel_messages dbAB "A"
    (fun _ => FetchResult.ok [{ ts := 7, user := none, text := none }]) ApplyOutcome.success)

/-- `dbA7` after archiving, into channel B, a page with the same ts 7. -/
def dbB7 : DB :=
  stateOf (archive_channel_messages dbA7 "B"
    (fun _ => FetchResult.ok [{ ts := 7, user := none, text := none }]) ApplyOutcome.success)

/-- Environment for a run over `dbAB` in which channel A's transaction hits a
storage fault and channel B's would succeed. -/
def envC9 : String → (Nat → FetchResult) × ApplyOutcome :=
  fun channel_id =>
    if channel_id = "A" then
      (fun _ => FetchResult.ok [{ ts := 1, user := none, text := none }],
       ApplyOutcome.storageError)
    else
      (fun _ => FetchResult.ok [{ ts := 9, user := none, text := none }],
       ApplyOutcome.success)

/-- Environment in which every fetch raises `SlackApiError` and no
transaction hits a storage fault. -/
def envAllApiErr : String → (Nat → FetchResult) × ApplyOutcome :=
  fun _ => (fun _ => FetchResult.apiError, ApplyOutcome.success)

theorem find?_filter_ne_append (l : List Channel) (channel_id : String) (c0 : Channel)
    (h : c0.channel_id = channel_id) :
    (l.filter (fun c => c.channel_id ≠ channel_id) ++ [c0]).find?
      (fun c => c.channel_id = channel_id) = some c0 := by
  induction l with
  | nil => simp [List.find?, h]
  | cons c cs ih =>
    by_cases hc : c.channel_id = channel_id
    · simpa [List.filter_cons, hc] using ih
    · simpa [List.filter_cons, hc, List.find?] using ih

theorem updateCursor_of_not_found (chs : List Channel) (channel_id : String) (ts : Nat)
    (h : ∀ c ∈ chs, c.channel_id ≠ channel_id) :
    updateCursor chs channel_id ts = chs := by
  induction chs with
  | nil => rfl
  | cons c cs ih =>
    have hc : c.channel_id ≠ channel_id := h c (List.mem_cons_self c cs)
    have hcs : ∀ x ∈ cs, x.channel_id ≠ channel_id := fun x hx => h x (List.mem_cons_of_mem c hx)
    simp [updateCursor, hc] at ih ⊢
    exact ih hcs

theorem find?_updateCursor_found (chs : List Channel) (channel_id : String) (ts : Nat)
    (h : ∃ c ∈ chs, c.channel_id = channel_id) :
    ((updateCursor chs channel_id ts).find? (fun c => c.channel_id = channel_id)).map
      (fun c => c.last_archived_timestamp) = some (some ts) := by
  induction chs with
  | nil => simp at h
  | cons c cs ih =>
    by_cases hc : c.channel_id = channel_id
    · simp [updateCursor, hc, List.find?]
    · have h' : ∃ x ∈ cs, x.channel_id = channel_id := by
        rcases h with ⟨x, hx, hxe⟩
        rcases List.mem_cons.mp hx with rfl | hx'
        · exact absurd hxe hc
        · exact ⟨x, hx', hxe⟩
      simpa [updateCursor, hc, List.find?] using ih h'

/-- C2 counterexample: in `dbA7` channel A is registered with cursor 7;
re-registering A under a new display name resets the cursor to NULL — the
`INSERT OR REPLACE` overwrites the whole row, so re-registration does reset
archiving progress, contrary to the claim. -/
theorem c2_reregistration_counterexample :
    getCursor dbA7 "A" = some (some 7) ∧
    getCursor (add_channel_to_archive dbA7 "A" (some "alpha")) "A" = some none ∧
    getCursor (add_channel_to_archive dbA7 "A" (some "alpha")) "A" ≠ some (some 7) := by
  decide

/-- C2 (amended): registering an already-registered channel id again updates
its display name but RESETS the cursor to NULL (the `INSERT OR REPLACE`
replaces the whole row), so re-registration always restarts archiving from
the beginning. -/
theorem c2_reregistration_resets_cursor (db : DB) (channel_id name : String) :
    getCursor (add_channel_to_archive db channel_id (some name)) channel_id = some none ∧
    ((add_channel_to_archive db channel_id (some name)).channels.find?
        (fun c => c.channel_id = channel_id)).map (fun c => c.channel_name) = some name := by
  have hf := find?_filter_ne_append db.channels channel_id
    { channel_id := channel_id, channel_name := name, last_archived_timestamp := none } rfl
  constructor
  · simp only [getCursor, add_channel_to_archive, hf]
    rfl
  · simp only [add_channel_to_archive, hf]
    rfl

/-- C4 counterexample: with channel C1 registered (cursor NULL) and upstream
holding page1 (positions 10, 50, 100, ascending, `has_more` set) and page2
(position 150), a single call of `archive_channel_messages` performs exactly
one `conversations_history` fetch: it stores 3 messages, not 4, and leaves
the cursor at 10 (the first element of page1), not at 150. -/
theorem c4_single_page_counterexample :
    run1.messages.length = 3 ∧
    ¬ (run1.messages.length = 4 ∧ getCursor run1 "C1" = some (some 150)) := by
  decide

/-- C4 (amended): one archiving run for one channel fetches and applies a
single page (up to the `limit=50` cap) with no loop on `has_more`: after one
run only page1's 3 messages are stored and the cursor is 10 (the ts of
page1's first element); a second run, in which upstream returns page2, is
needed before all 4 messages are stored, the cursor then being 150. -/
theorem c4_one_fetch_per_run :
    run1.messages.length = 3 ∧ getCursor run1 "C1" = some (some 10) ∧
    run2.messages.length = 4 ∧ getCursor run2 "C1" = some (some 150) := by
  decide

/-- C6: archiving is idempotent — whatever a first run did, a second run in
which upstream returns no message beyond the cursor (an empty page) commits
an unchanged state: zero messages inserted, cursor untouched, and the call
returns normally instead of raising. -/
theorem c6_second_run_noop (db : DB) (channel_id : String) (fetch : Nat → FetchResult)
    (outcome : ApplyOutcome) :
    archive_channel_messages (stateOf (archive_channel_messages db channel_id fetch outcome))
        channel_id (fun _ => FetchResult.ok []) ApplyOutcome.success
      = Except.ok (stateOf (archive_channel_messages db channel_id fetch outcome)) := rfl

/-- C8 counterexample: archiving the never-registered channel X does not fail
with any NotFound error: the missing row is read as a NULL cursor, the fetch
runs with `oldest='0'`, and the page is stored under X (the cursor UPDATE
matches no row). -/
theorem c8_unregistered_counterexample :
    archive_channel_messages setup_database "X"
        (fun _ => FetchResult.ok [{ ts := 5, user := none, text := none }])
        ApplyOutcome.success
      = Except.ok (DB.mk []
          [{ message_id := 5, channel_id := "X", timestamp := 5,
             user := "N/A", text := "" }]) := rfl

/-- C8 (amended): for a channel id that was never registered, the cursor read
yields NULL (`result[0] if result else None` cannot distinguish a missing row
from a NULL cursor) and archiving proceeds normally: the fetched page is
stored for that channel id while the channels table is untouched (the cursor
UPDATE matches no row), and no error is raised. -/
theorem c8_unregistered_proceeds (db : DB) (channel_id : String) (page : List SlackMessage)
    (h : db.channels.find? (fun c => c.channel_id = channel_id) = none) :
    lastTimestamp db channel_id = none ∧
    archive_channel_messages db channel_id (fun _ => FetchResult.ok page) ApplyOutcome.success
      = Except.ok (DB.mk db.channels
          (page.foldl (fun t m => insertOrIgnore t (rowOfMessage channel_id m))
            db.messages)) := by
  have hall : ∀ c ∈ db.channels, ¬ c.channel_id = channel_id := by
    intro c hc
    have := List.find?_eq_none.mp h c hc
    simpa using this
  constructor
  · unfold lastTimestamp
    rw [h]
  · show Except.ok (applyPage db channel_id page) = _
    cases page with
    | nil => rfl
    | cons m0 ms =>
      show Except.ok (DB.mk (updateCursor db.channels channel_id m0.ts) _) = _
      rw [updateCursor_of_not_found db.channels channel_id m0.ts hall]

/-- Witness for C8 (amended) at the empty database and channel X. -/
theorem c8_unregistered_proceeds_witness :
    setup_database.channels.find? (fun c => c.channel_id = "X") = none ∧
    lastTimestamp setup_database "X" = none :=
  ⟨rfl, (c8_unregistered_proceeds setup_database "X" [] rfl).1⟩

/-- C10: querying messages is total over arbitrary channel ids — any channel
id with no stored messages, registered or not, yields the empty list for
every limit and offset. -/
theorem c10_query_unknown_channel_empty (db : DB) (channel_id : String) (limit offset : Nat)
    (h : ∀ r ∈ db.messages, r.channel_id ≠ channel_id) :
    get_channel_messages db channel_id limit offset = [] := by
  have hf : db.messages.filter (fun r => r.channel_id = channel_id) = [] := by
    rw [List.filter_eq_nil_iff]
    intro a ha
    simpa using h a ha
  unfold get_channel_messages
  rw [hf]
  simp

/-- Witness for C10: `dbB7` stores one message, in channel A only; querying
the unregistered channel Z returns the empty list. -/
theorem c10_query_unknown_channel_empty_witness :
    (∀ r ∈ dbB7.messages, r.channel_id ≠ "Z") ∧
    get_channel_messages dbB7 "Z" 100 0 = [] :=
  ⟨by decide, c10_query_unknown_channel_empty dbB7 "Z" 100 0 (by decide)⟩

theorem mem_insertOrIgnore (t : List Row) (r x : Row) (hx : x ∈ t) :
    x ∈ insertOrIgnore t r := by
  unfold insertOrIgnore
  split
  · exact hx
  · exact List.mem_append_left _ hx

theorem exists_id_insertOrIgnore (t : List Row) (r : Row) :
    ∃ x ∈ insertOrIgnore t r, x.message_id = r.message_id := by
  unfold insertOrIgnore
  split
  · rename_i hany
    obtain ⟨x, hx, hid⟩ := List.any_eq_true.mp hany
    exact ⟨x, hx, of_decide_eq_true hid⟩
  · exact ⟨r, List.mem_append_right _ (List.mem_singleton_self r), rfl⟩

theorem mem_foldl_insertOrIgnore (channel_id : String) (msgs : List SlackMessage)
    (t : List Row) (x : Row) (hx : x ∈ t) :
    x ∈ msgs.foldl (fun t m => insertOrIgnore t (rowOfMessage channel_id m)) t := by
  induction msgs generalizing t with
  | nil => exact hx
  | cons m0 ms ih => exact ih _ (mem_insertOrIgnore t (rowOfMessage channel_id m0) x hx)

theorem exists_id_foldl_insertOrIgnore (channel_id : String) (msgs : List SlackMessage)
    (t : List Row) :
    ∀ m ∈ msgs, ∃ x ∈ msgs.foldl (fun t m => insertOrIgnore t (rowOfMessage channel_id m)) t,
      x.message_id = m.ts := by
  induction msgs generalizing t with
  | nil => intro m hm; cases hm
  | cons m0 ms ih =>
    intro m hm
    rcases List.mem_cons.mp hm with rfl | hm'
    · obtain ⟨x, hx, hid⟩ := exists_id_insertOrIgnore t (rowOfMessage channel_id m)
      exact ⟨x, mem_foldl_insertOrIgnore channel_id ms _ x hx, hid⟩
    · exact ih _ m hm'

/-- C1: one apply step is transactional.  For a registered channel and any
fetched page: under a successful commit the whole page is stored (each
message's id present in the table, duplicates having been silently ignored)
and the cursor is advanced to the page's new value (the ts of its first
element), while under a storage error during the apply step the raised
transaction leaves the state exactly unchanged — no message stored, cursor
untouched. -/
theorem c1_apply_is_atomic (db : DB) (channel_id : String) (msgs : List SlackMessage)
    (h : ∃ c ∈ db.channels, c.channel_id = channel_id) :
    (archive_channel_messages db channel_id (fun _ => FetchResult.ok msgs)
        ApplyOutcome.storageError = Except.error db) ∧
    (archive_channel_messages db channel_id (fun _ => FetchResult.ok msgs)
        ApplyOutcome.success = Except.ok (applyPage db channel_id msgs)) ∧
    (∀ m ∈ msgs, ∃ r ∈ (applyPage db channel_id msgs).messages, r.message_id = m.ts) ∧
    (∀ m0 ms, msgs = m0 :: ms →
      getCursor (applyPage db channel_id msgs) channel_id = some (some m0.ts)) ∧
    (msgs = [] → applyPage db channel_id msgs = db) := by
  refine ⟨rfl, rfl, ?_, ?_, ?_⟩
  · exact exists_id_foldl_insertOrIgnore channel_id msgs db.messages
  · intro m0 ms hmsgs
    subst hmsgs
    exact find?_updateCursor_found db.channels channel_id m0.ts h
  · intro hmsgs
    subst hmsgs
    rfl

/-- Witness for C1 at `dbReg` and `page1`: the storage-error branch raises
with the state unchanged, and the committed branch advances the cursor. -/
theorem c1_apply_is_atomic_witness :
    (∃ c ∈ dbReg.channels, c.channel_id = "C1") ∧
    archive_channel_messages dbReg "C1" (fun _ => FetchResult.ok page1)
        ApplyOutcome.storageError = Except.error dbReg ∧
    getCursor (applyPage dbReg "C1" page1) "C1" = some (some 10) :=
  ⟨by decide, (c1_apply_is_atomic dbReg "C1" page1 (by decide)).1,
   (c1_apply_is_atomic dbReg "C1" page1 (by decide)).2.2.2.1
     { ts := 10, user := none, text := none }
     [{ ts := 50, user := none, text := none }, { ts := 100, user := none, text := none }] rfl⟩

/-- C5 counterexample: applying to channel C1 a non-empty page ordered
ascending by position (10 then 100) sets the cursor to 10 — the position of
the FIRST message of the page — not to 100, the position of the last
(maximum-position) one as the claim states. -/
theorem c5_cursor_counterexample :
    getCursor (applyPage dbReg "C1"
        [{ ts := 10, user := none, text := none },
         { ts := 100, user := none, text := none }]) "C1" = some (some 10) ∧
    getCursor (applyPage dbReg "C1"
        [{ ts := 10, user := none, text := none },
         { ts := 100, user := none, text := none }]) "C1" ≠ some (some 100) := by
  decide

/-- C5 (amended): after a successful apply of a non-empty fetched page to a
registered channel, the cursor equals the position of the FIRST message of
the page (the maximum-position one only under the newest-first order the
Slack API actually returns, not for an ascending page); if the page is empty
the cursor is left unchanged. -/
theorem c5_cursor_is_first_of_page (db : DB) (channel_id : String) (msgs : List SlackMessage)
    (h : ∃ c ∈ db.channels, c.channel_id = channel_id) :
    (∀ m0 ms, msgs = m0 :: ms →
      getCursor (applyPage db channel_id msgs) channel_id = some (some m0.ts)) ∧
    (msgs = [] → getCursor (applyPage db channel_id msgs) channel_id = getCursor db channel_id) := by
  constructor
  · intro m0 ms hmsgs
    subst hmsgs
    exact find?_updateCursor_found db.channels channel_id m0.ts h
  · intro hmsgs
    subst hmsgs
    rfl

/-- Witness for C5 (amended) at `dbReg` and the two-message ascending page. -/
theorem c5_cursor_is_first_of_page_witness :
    (∃ c ∈ dbReg.channels, c.channel_id = "C1") ∧
    getCursor (applyPage dbReg "C1"
        [{ ts := 30, user := none, text := none },
         { ts := 90, user := none, text := none }]) "C1" = some (some 30) :=
  ⟨by decide,
   (c5_cursor_is_first_of_page dbReg "C1"
       [{ ts := 30, user := none, text := none }, { ts := 90, user := none, text := none }]
       (by decide)).1
     { ts := 30, user := none, text := none } [{ ts := 90, user := none, text := none }] rfl⟩

theorem pairwise_insertOrIgnore (t : List Row) (r : Row)
    (h : t.Pairwise (fun a b => a.message_id ≠ b.message_id)) :
    (insertOrIgnore t r).Pairwise (fun a b => a.message_id ≠ b.message_id) := by
  unfold insertOrIgnore
  split
  · exact h
  · rename_i hany
    rw [List.pairwise_append]
    refine ⟨h, List.pairwise_singleton _ _, ?_⟩
    intro x hx y hy
    rw [List.mem_singleton] at hy
    subst hy
    intro he
    exact hany (List.any_eq_true.mpr ⟨x, hx, decide_eq_true he⟩)

theorem pairwise_foldl_insertOrIgnore (channel_id : String) (msgs : List SlackMessage)
    (t : List Row) (h : t.Pairwise (fun a b => a.message_id ≠ b.message_id)) :
    (msgs.foldl (fun t m => insertOrIgnore t (rowOfMessage channel_id m)) t).Pairwise
      (fun a b => a.message_id ≠ b.message_id) := by
  induction msgs generalizing t with
  | nil => exact h
  | cons m0 ms ih => exact ih _ (pairwise_insertOrIgnore t (rowOfMessage channel_id m0) h)

theorem id_eq_ts_insertOrIgnore (t : List Row) (r : Row)
    (hr : r.message_id = r.timestamp) (h : ∀ x ∈ t, x.message_id = x.timestamp) :
    ∀ x ∈ insertOrIgnore t r, x.message_id = x.timestamp := by
  unfold insertOrIgnore
  split
  · exact h
  · intro x hx
    rcases List.mem_append.mp hx with hx' | hx'
    · exact h x hx'
    · rw [List.mem_singleton] at hx'
      subst hx'
      exact hr

theorem id_eq_ts_foldl_insertOrIgnore (channel_id : String) (msgs : List SlackMessage)
    (t : List Row) (h : ∀ x ∈ t, x.message_id = x.timestamp) :
    ∀ x ∈ msgs.foldl (fun t m => insertOrIgnore t (rowOfMessage channel_id m)) t,
      x.message_id = x.timestamp := by
  induction msgs generalizing t with
  | nil => exact h
  | cons m0 ms ih =>
    exact ih _ (id_eq_ts_insertOrIgnore t (rowOfMessage channel_id m0) rfl h)

/-- The message-table invariant maintained by every reachable state:
`message_id` values are pairwise distinct (the table's PRIMARY KEY), and
every row has `message_id = timestamp` (both columns are filled from the
same `message['ts']`). -/
theorem reachable_messages_invariant (db : DB) (h : Reachable db) :
    db.messages.Pairwise (fun a b => a.message_id ≠ b.message_id) ∧
    ∀ x ∈ db.messages, x.message_id = x.timestamp := by
  induction h with
  | init => exact ⟨List.Pairwise.nil, by intro x hx; cases hx⟩
  | add db channel_id info _ ih =>
    cases info with
    | none => exact ih
    | some name => exact ih
  | archive db channel_id fetch outcome _ ih =>
    unfold archive_channel_messages
    cases hf : fetch ((lastTimestamp db channel_id).getD 0) with
    | apiError => exact ih
    | ok msgs =>
      cases outcome with
      | storageError => exact ih
      | success =>
        refine ⟨pairwise_foldl_insertOrIgnore channel_id msgs db.messages ih.1, ?_⟩
        exact id_eq_ts_foldl_insertOrIgnore channel_id msgs db.messages ih.2

theorem eq_of_pairwise_ne_ids (l : List Row)
    (hp : l.Pairwise (fun a b => a.message_id ≠ b.message_id)) :
    ∀ r1 ∈ l, ∀ r2 ∈ l, r1.message_id = r2.message_id → r1 = r2 := by
  induction l with
  | nil => intro r1 h1; cases h1
  | cons x xs ih =>
    rw [List.pairwise_cons] at hp
    obtain ⟨hx, hxs⟩ := hp
    intro r1 h1 r2 h2 he
    rcases List.mem_cons.mp h1 with rfl | h1' <;> rcases List.mem_cons.mp h2 with rfl | h2'
    · rfl
    · exact absurd he (hx r2 h2')
    · exact absurd he.symm (hx r1 h1')
    · exact ih hxs r1 h1' r2 h2' he

/-- C3 counterexample: after archiving the message with ts 7 into channel A
and then a message with the same ts 7 into channel B, only the A row exists —
the second insert was ignored because the PRIMARY KEY is `message_id` alone,
so two messages with the same message id in different channels can NOT both
be stored, contrary to the claim's dedup key `(channel_id, message_id)`. -/
theorem c3_dedup_key_counterexample :
    dbB7.messages = [{ message_id := 7, channel_id := "A", timestamp := 7,
                       user := "N/A", text := "" }] ∧
    ¬ ∃ r ∈ dbB7.messages, r.channel_id = "B" := by
  decide

/-- C3 (amended): the deduplication key for stored messages is `message_id`
ALONE, globally across channels: in every reachable store state there is at
most one message row per `message_id` (hence a fortiori at most one per
`(channel_id, message_id)` pair), and re-inserting any row whose
`message_id` is already present — even from a different channel — is a
no-op. -/
theorem c3_dedup_key_is_message_id (db : DB) (h : Reachable db) :
    (∀ r1 ∈ db.messages, ∀ r2 ∈ db.messages, r1.message_id = r2.message_id → r1 = r2) ∧
    (∀ r : Row, (∃ x ∈ db.messages, x.message_id = r.message_id) →
      insertOrIgnore db.messages r = db.messages) := by
  constructor
  · exact eq_of_pairwise_ne_ids db.messages (reachable_messages_invariant db h).1
  · intro r ⟨x, hx, hid⟩
    unfold insertOrIgnore
    rw [if_pos (List.any_eq_true.mpr ⟨x, hx, decide_eq_true hid⟩)]

/-- Witness for C3 (amended) at the reachable state `dbB7`: re-inserting a
row with the already-present message id 7 — under channel B — is a no-op. -/
theorem c3_dedup_key_is_message_id_witness :
    insertOrIgnore dbB7.messages
        { message_id := 7, channel_id := "B", timestamp := 7, user := "N/A", text := "" }
      = dbB7.messages :=
  (c3_dedup_key_is_message_id dbB7
      (Reachable.archive dbA7 "B"
        (fun _ => FetchResult.ok [{ ts := 7, user := none, text := none }])
        ApplyOutcome.success
        (Reachable.archive dbAB "A"
          (fun _ => FetchResult.ok [{ ts := 7, user := none, text := none }])
          ApplyOutcome.success
          (Reachable.add (add_channel_to_archive setup_database "A" (some "a")) "B" (some "b")
            (Reachable.add setup_database "A" (some "a") Reachable.init))))).2
    { message_id := 7, channel_id := "B", timestamp := 7, user := "N/A", text := "" }
    (by decide)

/-- C7: for every reachable store state, channel and limit/offset window, the
query returns rows of that channel in position-ascending order, with ties on
equal positions necessarily between equal message ids (in reachable states
`message_id` IS the timestamp and is unique, so the tie-break on
`message_id` holds degenerately), independent of insertion order; and every
returned row comes from a stored message of that channel. -/
theorem c7_query_ordered (db : DB) (h : Reachable db) (channel_id : String)
    (limit offset : Nat) :
    (get_channel_messages db channel_id limit offset).Pairwise posIdLe ∧
    ∀ q ∈ get_channel_messages db channel_id limit offset,
      ∃ r ∈ db.messages, r.channel_id = channel_id ∧ queryRowOf r = q := by
  have hids := (reachable_messages_invariant db h).2
  have hsorted :
      ((db.messages.filter (fun r => r.channel_id = channel_id)).insertionSort
          (fun a b => a.timestamp ≤ b.timestamp)).Pairwise
        (fun a b => a.timestamp ≤ b.timestamp) :=
    List.sorted_insertionSort _ _
  have hsub :
      (((((db.messages.filter (fun r => r.channel_id = channel_id)).insertionSort
          (fun a b => a.timestamp ≤ b.timestamp)).drop offset).take limit)).Sublist
        ((db.messages.filter (fun r => r.channel_id = channel_id)).insertionSort
          (fun a b => a.timestamp ≤ b.timestamp)) :=
    (List.take_sublist _ _).trans (List.drop_sublist _ _)
  have hmem :
      ∀ x ∈ ((((db.messages.filter (fun r => r.channel_id = channel_id)).insertionSort
          (fun a b => a.timestamp ≤ b.timestamp)).drop offset).take limit),
        x ∈ db.messages ∧ x.channel_id = channel_id := by
    intro x hx
    have hxr := (List.mem_insertionSort _).mp (hsub.mem hx)
    have hxf := List.mem_filter.mp hxr
    exact ⟨hxf.1, of_decide_eq_true hxf.2⟩
  constructor
  · unfold get_channel_messages
    rw [List.pairwise_map]
    refine (hsorted.sublist hsub).imp_of_mem ?_
    intro a b ha hb hab
    have hat : a.message_id = a.timestamp := hids a (hmem a ha).1
    have hbt : b.message_id = b.timestamp := hids b (hmem b hb).1
    rcases Nat.lt_or_ge a.timestamp b.timestamp with hlt | hge
    · exact Or.inl hlt
    · have heq : a.timestamp = b.timestamp := Nat.le_antisymm hab hge
      exact Or.inr ⟨heq, by
        show (queryRowOf a).message_id ≤ (queryRowOf b).message_id
        simp only [queryRowOf, hat, hbt, heq, Nat.le_refl]⟩
  · intro q hq
    unfold get_channel_messages at hq
    obtain ⟨x, hx, hxq⟩ := List.mem_map.mp hq
    exact ⟨x, (hmem x hx).1, (hmem x hx).2, hxq⟩

/-- Witness for C7 at the reachable state `dbA7` (one archived message). -/
theorem c7_query_ordered_witness :
    (get_channel_messages dbA7 "A" 100 0).Pairwise posIdLe :=
  (c7_query_ordered dbA7
      (Reachable.archive dbAB "A"
        (fun _ => FetchResult.ok [{ ts := 7, user := none, text := none }])
        ApplyOutcome.success
        (Reachable.add (add_channel_to_archive setup_database "A" (some "a")) "B" (some "b")
          (Reachable.add setup_database "A" (some "a") Reachable.init)))
      "A" 100 0).1

theorem archive_success_isOk (db : DB) (channel_id : String) (fetch : Nat → FetchResult) :
    ∃ db2, archive_channel_messages db channel_id fetch ApplyOutcome.success
      = Except.ok db2 := by
  unfold archive_channel_messages
  cases hf : fetch ((lastTimestamp db channel_id).getD 0) with
  | apiError => exact ⟨db, rfl⟩
  | ok msgs => exact ⟨applyPage db channel_id msgs, rfl⟩

theorem foldlM_archive_success_ok (env : String → (Nat → FetchResult) × ApplyOutcome)
    (henv : ∀ channel_id, (env channel_id).2 = ApplyOutcome.success)
    (cids : List String) (d : DB) :
    ∃ d2, cids.foldlM
        (fun d channel_id =>
          archive_channel_messages d channel_id (env channel_id).1 (env channel_id).2) d
      = Except.ok d2 := by
  induction cids generalizing d with
  | nil => exact ⟨d, rfl⟩
  | cons c cs ih =>
    obtain ⟨d1, hd1⟩ := archive_success_isOk d c (env c).1
    obtain ⟨d2, hd2⟩ := ih d1
    refine ⟨d2, ?_⟩
    rw [List.foldlM_cons, henv c, hd1]
    simpa using hd2

/-- C9 counterexample: over the two registered channels A then B, a storage
error in channel A's apply step makes the whole `schedule_archiving` run
raise: the exception propagates out of the run and channel B is never
processed (no message of B is stored), contrary to the claim that a
per-channel storage error never aborts the overall run. -/
theorem c9_storage_error_aborts_counterexample :
    schedule_archiving dbAB envC9 = Except.error dbAB ∧
    raised (schedule_archiving dbAB envC9) = true ∧
    ¬ ∃ r ∈ (stateOf (schedule_archiving dbAB envC9)).messages, r.channel_id = "B" := by
  refine ⟨rfl, rfl, ?_⟩
  decide

/-- C9 (amended): upstream Slack API failures on one channel (rate limiting,
unknown channel, any `SlackApiError`) are caught inside the per-channel call,
which then returns with the state — cursor included — unchanged, so the run
proceeds to every remaining channel and, when no storage fault occurs, the
whole `schedule_archiving` run completes without raising; a storage error
during one channel's apply step, however, is NOT caught and aborts the run. -/
theorem c9_api_errors_never_abort (db : DB)
    (env : String → (Nat → FetchResult) × ApplyOutcome) :
    ((∀ channel_id, (env channel_id).2 = ApplyOutcome.success) →
      ∃ db2, schedule_archiving db env = Except.ok db2) ∧
    (∀ channel_id outcome,
      archive_channel_messages db channel_id (fun _ => FetchResult.apiError) outcome
        = Except.ok db) := by
  constructor
  · intro henv
    exact foldlM_archive_success_ok env henv _ db
  · intro channel_id outcome
    rfl

/-- Witness for C9 (amended): with every fetch raising `SlackApiError` and no
storage fault, a run over the two channels of `dbAB` completes without
raising. -/
theorem c9_api_errors_never_abort_witness :
    (∀ channel_id, (envAllApiErr channel_id).2 = ApplyOutcome.success) ∧
    ∃ db2, schedule_archiving dbAB envAllApiErr = Except.ok db2 :=
  ⟨fun _ => rfl, (c9_api_errors_never_abort dbAB envAllApiErr).1 (fun _ => rfl)⟩
